import Mathlib

/-!
Verification development for the pipeline2app repository.

Shallow embedding of:
* the version model (`src/pipeline2app/core/version.py`),
* the XNAT command compiler (`src/arcana/deploy/medimage/xnat.py`),
* the build-spec model and structural diff
  (`src/pipeline2app/core/image/base.py`, `src/pipeline2app/core/image/app.py`),
* the build-reconciliation engine of the `make` CLI command
  (`src/pipeline2app/core/cli.py`).

Python integers are modelled as `Nat`/`Int`, fallible code returns
`Except`/`Option`; a raised Python exception is an `Except.error` carrying the
exception's kind.
-/

set_option maxRecDepth 16384

/-- The kinds of Python exception raised by the embedded code. -/
inductive PyErr where
  | valueError
  | nameError
  | keyError
  | typeError
  | buildError
deriving DecidableEq, Repr

/-! ## Version model — `src/pipeline2app/core/version.py`

`Version.parse` uses the regular expression

    ^v?(?P<release>[a-zA-Z0-9_]+)
      (?P<suffix>-(?P<suffix_l>(alpha|beta|rc|post))(?P<suffix_n>[0-9]+)?)?$

compiled with `re.VERBOSE | re.IGNORECASE` (the pattern has no whitespace, so
`VERBOSE` is inert; `IGNORECASE` lets the literal `v` and the suffix labels
match in either case).  The release character class contains no `.`, so the
match is: an optional `v`, then a maximal non-empty run of word characters,
then either the end of the string or `-<label><digits?>`.  The embedding
mirrors the (deterministic) backtracking of that pattern. -/

/-- A release is either a tuple of integers or an opaque string
(`release: ty.Union[ty.Tuple[int, ...], str]`). -/
inductive Release where
  | ints (ns : List Nat)
  | str (s : String)
deriving DecidableEq, Repr

/-- The `Version` class: `release`, `suffix_label`, `suffix_number`. -/
structure Version where
  release : Release
  suffix_label : String
  suffix_number : Nat
deriving DecidableEq, Repr

/-- `Version.SUFFIX_LABELS`. -/
def SUFFIX_LABELS : List String := ["alpha", "beta", "rc", "post"]

/-- A character of the regex class `[a-zA-Z0-9_]`. -/
def wordChar (c : Char) : Bool :=
  ('a' ≤ c && c ≤ 'z') || ('A' ≤ c && c ≤ 'Z') || ('0' ≤ c && c ≤ '9') || c = '_'

/-- A character of the regex class `[0-9]`. -/
def isDigitChar (c : Char) : Bool :=
  '0' ≤ c && c ≤ '9'

/-- Value of an ASCII digit. -/
def digitVal (c : Char) : Nat := c.toNat - '0'.toNat

/-- Tail of Python `int(...)` on a string: decimal digits with single
underscores allowed between digits. -/
def pyIntGo (acc : Nat) : List Char → Option Nat
  | [] => some acc
  | '_' :: c :: rest =>
    if isDigitChar c then pyIntGo (acc * 10 + digitVal c) rest else none
  | c :: rest =>
    if isDigitChar c then pyIntGo (acc * 10 + digitVal c) rest else none

/-- Python `int(s)` on the word-character strings produced by the version
regex: succeeds exactly on `[0-9]+(_[0-9]+)*` (no sign or whitespace can occur
here, the characters come from `[a-zA-Z0-9_]`). -/
def pyInt : List Char → Option Nat
  | [] => none
  | c :: rest => if isDigitChar c then pyIntGo (digitVal c) rest else none

/-- Python `s.split(".")`. -/
def pySplitDot : List Char → List (List Char)
  | [] => [[]]
  | c :: rest =>
    let r := pySplitDot rest
    if c = '.' then [] :: r
    else (c :: r.headD []) :: r.tail

/-- Case-insensitive match of a fixed lowercase label at the head of the
input; returns the matched text (original case) and the rest. -/
def matchLabelCI : List Char → List Char → Option (List Char × List Char)
  | [], s => some ([], s)
  | _ :: _, [] => none
  | l :: ls, c :: cs =>
    if c.toLower = l then (matchLabelCI ls cs).map (fun p => (c :: p.1, p.2))
    else none

/-- The suffix body after the `-`: tries the alternatives
`alpha|beta|rc|post` in order; after a label the remainder must be digits
(`(?P<suffix_n>[0-9]+)?$`).  Returns the matched label text and the digit
group when present. -/
def matchSuffixBody : List String → List Char → Option (String × Option (List Char))
  | [], _ => none
  | lab :: rest, r =>
    match matchLabelCI lab.data r with
    | some (txt, rem) =>
      if rem.all isDigitChar then
        some (String.mk txt, if rem.isEmpty then none else some rem)
      else matchSuffixBody rest r
    | none => matchSuffixBody rest r

/-- The pattern after the optional `v`: a maximal non-empty run of word
characters (the release), then end-of-string or `-<suffix>`.  A release
cannot backtrack to a shorter run: the following character would be a word
character, matching neither `-` nor the end anchor. -/
def matchCore (s : List Char) :
    Option (List Char × Option (String × Option (List Char))) :=
  let w := s.takeWhile wordChar
  let rest := s.dropWhile wordChar
  if w.isEmpty then none
  else
    match rest with
    | [] => some (w, none)
    | '-' :: r => (matchSuffixBody SUFFIX_LABELS r).map (fun suf => (w, suf))
    | _ => none

/-- `Version.version_re.match(version)`: the greedy `v?` consumes a leading
`v`/`V` first and backtracks to the empty match if the remainder fails. -/
def pyMatch (s : List Char) :
    Option (List Char × Option (String × Option (List Char))) :=
  match s with
  | [] => none
  | c :: cs =>
    if c = 'v' ∨ c = 'V' then
      match matchCore cs with
      | some m => some m
      | none => matchCore s
    else matchCore s

/-- Python `int` on the digit-only `suffix_n` group. -/
def digitsToNat (ds : List Char) : Nat := (pyInt ds).getD 0

/-- `Version.parse`.  `none` models the `ValueError` raised on a suffix label
outside `SUFFIX_LABELS` (reachable only through `IGNORECASE`, e.g. `"1-RC1"`
matches with `suffix_l = "RC"`).  When the regex does not match, the whole
input string becomes the release (`return cls(version)`); when it matches,
`tuple(int(r) for r in release.split("."))` is attempted and the release is
kept as a string if any segment fails `int`. -/
def Version.parse (version : String) : Option Version :=
  match pyMatch version.data with
  | none => some ⟨Release.str version, "", 0⟩
  | some (rel, suf) =>
    let release : Release :=
      match (pySplitDot rel).mapM pyInt with
      | some ns => Release.ints ns
      | none => Release.str (String.mk rel)
    match suf with
    | none => some ⟨release, "", 0⟩
    | some (labText, digs) =>
      if SUFFIX_LABELS.contains labText then
        some ⟨release, labText, (digs.map digitsToNat).getD 0⟩
      else none

/-- `Version.__str__` for the release part. -/
def Release.tostr : Release → String
  | .ints ns => String.intercalate "." (ns.map toString)
  | .str s => s

/-- `Version.__str__`. -/
def Version.tostr (v : Version) : String :=
  v.release.tostr ++
    (if v.suffix_label ≠ "" then "-" ++ v.suffix_label ++ toString v.suffix_number
     else "")

/-- Python `<`/`>` on strings: lexicographic comparison of code points. -/
def pyChrsCmp : List Char → List Char → Int
  | [], [] => 0
  | [], _ :: _ => -1
  | _ :: _, [] => 1
  | c :: cs, d :: ds =>
    if c.toNat < d.toNat then -1
    else if d.toNat < c.toNat then 1
    else pyChrsCmp cs ds

/-- Python `<`/`>` on strings. -/
def pyStrCmp (a b : String) : Int := pyChrsCmp a.data b.data

/-- Python `<`/`>` on tuples of ints: lexicographic, a strict prefix sorts
first. -/
def pyListNatCmp : List Nat → List Nat → Int
  | [], [] => 0
  | [], _ :: _ => -1
  | _ :: _, [] => 1
  | a :: as_, b :: bs =>
    if a < b then -1
    else if b < a then 1
    else pyListNatCmp as_ bs

/-- `SUFFIX_LABELS.index(label)`: raises `ValueError` when absent. -/
def labelIndexE (l : String) : Except PyErr Nat :=
  match SUFFIX_LABELS.indexOf? l with
  | some i => Except.ok i
  | none => Except.error .valueError

/-- `Version.compare`: raises `ValueError` on a tuple/string release mix,
otherwise compares releases, then the post/pre/unsuffixed rules, then the
label indices, then the suffix numbers. -/
def Version.compare (self other : Version) : Except PyErr Int := do
  let rc ←
    match self.release, other.release with
    | Release.str a, Release.str b => Except.ok (pyStrCmp a b)
    | Release.ints a, Release.ints b => Except.ok (pyListNatCmp a b)
    | _, _ => Except.error PyErr.valueError
  if rc < 0 then return -1
  if 0 < rc then return 1
  if self.suffix_label = "post" ∧ other.suffix_label ≠ "post" then return 1
  if self.suffix_label ≠ "post" ∧ other.suffix_label = "post" then return -1
  if self.suffix_label ≠ "" ∧ other.suffix_label = "" then return 1
  if self.suffix_label = "" ∧ other.suffix_label ≠ "" then return -1
  let li ← labelIndexE self.suffix_label
  let oi ← labelIndexE other.suffix_label
  if li < oi then return -1
  if oi < li then return 1
  if self.suffix_number < other.suffix_number then return -1
  if other.suffix_number < self.suffix_number then return 1
  return 0

/-- The right-hand operand of `Version.__eq__`. -/
inductive EqOperand where
  | ver (v : Version)
  | str (s : String)
  | otherObj
deriving DecidableEq, Repr

/-- `Version.__eq__`.  For a string operand the source runs
`other_version = Version(other)` — the raw constructor, not `Version.parse`,
so the operand becomes a string-release version and the `except ValueError`
around it is dead (`__init__` only assigns fields); `self.compare` may then
raise `ValueError` on a release-type mix.  For a `Version` operand both
branches of the `if`/`elif` are skipped and the final
`return self.compare(other_version) == 0` reads the never-assigned local
`other_version`: `NameError`.  Any other operand returns `False`. -/
def Version.pyEq (self : Version) : EqOperand → Except PyErr Bool
  | .str s =>
    match self.compare ⟨Release.str s, "", 0⟩ with
    | .ok i => .ok (i = 0)
    | .error e => .error e
  | .ver _ => .error .nameError
  | .otherObj => .ok false

/-- `Version.bump_postfix` (final name letters trimmed): keeps the release,
keeps the suffix label (or turns the empty label into `"post"`) and adds one
to the suffix number. -/
def Version.bumpPost (v : Version) : Version :=
  let lab := if v.suffix_label ≠ "" then v.suffix_label else "post"
  ⟨v.release, lab, v.suffix_number + 1⟩

example : Version.parse "1-alpha2" = some ⟨Release.ints [1], "alpha", 2⟩ := by decide
example : Version.parse "1.0.0" = some ⟨Release.str "1.0.0", "", 0⟩ := by decide
example : Version.parse "v2" = some ⟨Release.ints [2], "", 0⟩ := by decide
example : Version.parse "v-alpha1" = some ⟨Release.str "v", "alpha", 1⟩ := by decide
example : Version.parse "1-RC1" = none := by decide
example : Version.parse "1-alpha" = some ⟨Release.ints [1], "alpha", 0⟩ := by decide
example : Version.parse "1_0" = some ⟨Release.ints [10], "", 0⟩ := by decide

/-! ## Serialized values

Serialized build specs (the output of `P2AImage.asdict`) and JSON descriptor
fragments are modelled by one value type.  Python dictionaries keep insertion
order, so a dictionary is a list of key/value pairs; the top level of a
serialized spec is kept as a plain `List (String × SVal)`. -/

mutual
/-- A serialized (JSON-like) value: string, bool, int, `None`, list, dict. -/
inductive SVal where
  | s (v : String)
  | b (v : Bool)
  | i (v : Int)
  | null
  | list (vs : SList)
  | dict (fs : SFields)
deriving DecidableEq, Repr
/-- A list of serialized values. -/
inductive SList where
  | nil
  | cons (hd : SVal) (tl : SList)
deriving DecidableEq, Repr
/-- The fields of a serialized dictionary, in insertion order. -/
inductive SFields where
  | nil
  | cons (k : String) (v : SVal) (tl : SFields)
deriving DecidableEq, Repr
end

/-- Build an `SList` from a `List`. -/
def SList.ofList : List SVal → SList
  | [] => .nil
  | v :: rest => .cons v (SList.ofList rest)

/-- Build `SFields` from a `List` of pairs. -/
def SFields.ofList : List (String × SVal) → SFields
  | [] => .nil
  | (k, v) :: rest => .cons k v (SFields.ofList rest)

/-- Look up a key and remove its first occurrence. -/
def SFields.getRemove (k : String) : SFields → Option (SVal × SFields)
  | .nil => none
  | .cons k2 v tl =>
    if k2 = k then some (v, tl)
    else (SFields.getRemove k tl).map (fun p => (p.1, .cons k2 v p.2))

mutual
/-- Modelled from the spec: value equivalence used by the structural diff
(the third-party `DeepDiff` call in `P2AImage.compare_specs` is an external
collaborator; §4.3/§9 of the spec ask for a recursive comparison over the
normalized tree that ignores dictionary key order and reports differing
paths).  Scalars compare by value, lists element-wise, dictionaries by key
lookup regardless of order. -/
def SVal.equiv : SVal → SVal → Bool
  | .s a, .s b => a = b
  | .b a, .b b => a = b
  | .i a, .i b => a = b
  | .null, .null => true
  | .list xs, .list ys => SList.equiv xs ys
  | .dict fs, .dict gs => SFields.equiv fs gs
  | _, _ => false
/-- Element-wise equivalence of serialized lists. -/
def SList.equiv : SList → SList → Bool
  | .nil, .nil => true
  | .cons x xs, .cons y ys => SVal.equiv x y && SList.equiv xs ys
  | _, _ => false
/-- Key-order-insensitive equivalence of serialized dictionaries. -/
def SFields.equiv : SFields → SFields → Bool
  | .nil, gs => gs = .nil
  | .cons k v fs, gs =>
    match SFields.getRemove k gs with
    | none => false
    | some (w, rest) => SVal.equiv v w && SFields.equiv fs rest
end

mutual
theorem SVal.equivReflSVal : ∀ v : SVal, SVal.equiv v v = true
  | .s _ => by simp [SVal.equiv]
  | .b _ => by simp [SVal.equiv]
  | .i _ => by simp [SVal.equiv]
  | .null => by simp [SVal.equiv]
  | .list xs => by simp [SVal.equiv, SList.equivReflSList xs]
  | .dict fs => by simp [SVal.equiv, SFields.equivReflSFields fs]
theorem SList.equivReflSList : ∀ xs : SList, SList.equiv xs xs = true
  | .nil => by simp [SList.equiv]
  | .cons x xs => by simp [SList.equiv, SVal.equivReflSVal x, SList.equivReflSList xs]
theorem SFields.equivReflSFields : ∀ fs : SFields, SFields.equiv fs fs = true
  | .nil => by simp [SFields.equiv]
  | .cons k v fs => by
    simp [SFields.equiv, SFields.getRemove, SVal.equivReflSVal v, SFields.equivReflSFields fs]
end

/-- Python truthiness of a serialized value (`bool(v)`). -/
def pyTruthy : SVal → Bool
  | .s v => v ≠ ""
  | .b v => v
  | .i v => v ≠ 0
  | .null => false
  | .list vs => vs ≠ .nil
  | .dict fs => fs ≠ .nil

/-- `isinstance(v, bool)`. -/
def isBoolVal : SVal → Bool
  | .b _ => true
  | _ => false

/-- `k in dct` on an insertion-ordered dictionary. -/
def containsKey (l : List (String × SVal)) (k : String) : Bool :=
  l.any (fun kv => kv.1 = k)

/-- `dct[k]` as an option: the first binding of the key. -/
def lookupKey (l : List (String × SVal)) (k : String) : Option SVal :=
  (l.find? (fun kv => kv.1 = k)).map (fun kv => kv.2)

/-- Remove the first binding of a key. -/
def eraseKey : List (String × SVal) → String → List (String × SVal)
  | [], _ => []
  | kv :: rest, k => if kv.1 = k then rest else kv :: eraseKey rest k

/-- `del dct[k]`: raises `KeyError` when the key is absent. -/
def pyDel (l : List (String × SVal)) (k : String) :
    Except PyErr (List (String × SVal)) :=
  if containsKey l k then .ok (eraseKey l k) else .error .keyError

/-- Modelled from the spec: the top level of the structural diff of two
serialized documents (`DeepDiff` in `P2AImage.compare_specs` is an external
collaborator; §9: ignore key order, report added/removed/changed paths).
Returns the top-level keys whose values were removed, changed or added. -/
def deepDiffKeys (a b : List (String × SVal)) : List String :=
  a.filterMap (fun kv =>
    match lookupKey b kv.1 with
    | none => some kv.1
    | some w => if SVal.equiv kv.2 w then none else some kv.1) ++
  b.filterMap (fun kv => if containsKey a kv.1 then none else some kv.1)

/-! ## XNAT command compiler — `src/arcana/deploy/medimage/xnat.py`

`generate_xnat_cs_command` turns a named pipeline plus input/output/parameter
argument specifications into the XNAT container-service command descriptor
and its embedded command line. -/

/-- Modelled from the spec: the row-frequency enumeration (the `Clinical`
data space of `arcana.data.spaces.medimage`, which is not under src/).  §4.2
and §9 of the spec name the `session` and `dataset` branches; the glossary
names further hierarchy levels (per-subject etc.). -/
inductive Clinical where
  | dataset
  | group
  | member
  | timepoint
  | subject
  | batch
  | session
deriving DecidableEq, Repr

/-- Modelled from the spec: the rendering of a `Clinical` member inside the
generated command line (`--frequency {frequency}`); the class is not under
src/, the member name is used. -/
def Clinical.pyStr : Clinical → String
  | .dataset => "dataset"
  | .group => "group"
  | .member => "member"
  | .timepoint => "timepoint"
  | .subject => "subject"
  | .batch => "batch"
  | .session => "session"

/-- `VALID_FREQUENCIES = (Clinical.session, Clinical.dataset)`. -/
def VALID_FREQUENCIES : List Clinical := [Clinical.session, Clinical.dataset]

/-- Errors raised while generating an XNAT command. -/
inductive XnatErr where
  | arcanaUsageError
  | notImplementedError
  | attributeError
deriving DecidableEq, Repr

/-- A Python type object used as a format or parameter type: the builtins
`str`, `Path`, `bool`, `int`, `float`, or an Arcana file-format class.
Format classes are not under src/ and are modelled from the spec by their
class name, dotted location and canonical extension. -/
inductive PyType where
  | pyStr
  | pyPath
  | pyBool
  | pyInt
  | pyFloat
  | fileFormat (className : String) (location : String) (ext : Option String)
deriving DecidableEq, Repr

/-- `format.class_name()`: Arcana format classes provide it, the Python
builtins do not (`AttributeError`). -/
def PyType.classNameE : PyType → Except XnatErr String
  | .fileFormat n _ _ => .ok n
  | _ => .error .attributeError

/-- `format.location()`: Arcana format classes provide it, the Python
builtins do not (`AttributeError`). -/
def PyType.locationE : PyType → Except XnatErr String
  | .fileFormat _ l _ => .ok l
  | _ => .error .attributeError

/-- `format.ext`: Arcana format classes provide it, the Python builtins do
not (`AttributeError`). -/
def PyType.extE : PyType → Except XnatErr (Option String)
  | .fileFormat _ _ e => .ok e
  | _ => .error .attributeError

/-- `COMMAND_INPUT_TYPES.get(t, 'string')` over
`{bool: 'bool', str: 'string', int: 'number', float: 'number'}`. -/
def commandInputTypesGet : PyType → String
  | .pyBool => "bool"
  | .pyStr => "string"
  | .pyInt => "number"
  | .pyFloat => "number"
  | _ => "string"

/-- `f"{t}"` on a Python type object (`str(type)` is `<class '...'>`). -/
def PyType.pyRepr : PyType → String
  | .pyStr => "<class 'str'>"
  | .pyPath => "<class 'pathlib.Path'>"
  | .pyBool => "<class 'bool'>"
  | .pyInt => "<class 'int'>"
  | .pyFloat => "<class 'float'>"
  | .fileFormat _ l _ => "<class '" ++ l ++ "'>"

/-- Body of `path2xnatname`: `re.sub(r'[^a-zA-Z0-9_]+', '_', path)` — every
maximal run of non-word characters becomes one underscore; `inRun` remembers
whether the previous character already opened such a run. -/
def path2xnatnameGo (inRun : Bool) : List Char → List Char
  | [] => []
  | c :: rest =>
    if wordChar c then c :: path2xnatnameGo false rest
    else if inRun then path2xnatnameGo true rest
    else '_' :: path2xnatnameGo true rest

/-- `path2xnatname`. -/
def path2xnatname (path : String) : String := String.mk (path2xnatnameGo false path.data)

/-- Modelled from the spec: `path2varname` from `arcana.core.utils` (not
under src/) — sanitizes a display name into an identifier-safe variable name;
no claim depends on its exact form, it is modelled like `path2xnatname`. -/
def path2varname (path : String) : String := String.mk (path2xnatnameGo false path.data)

/-- Modelled from the spec: the in-container input mount point of the
`XnatViaCS` store (`arcana.data.stores.medimage`, not under src/); §6 only
requires a fixed path per mount. -/
def xnatViaCSInputMount : String := "/input"

/-- Modelled from the spec: the in-container output mount point of the
`XnatViaCS` store (not under src/). -/
def xnatViaCSOutputMount : String := "/output"

/-- Modelled from the spec: the in-container work mount point of the
`XnatViaCS` store (not under src/). -/
def xnatViaCSWorkMount : String := "/work"

/-- Python `str.upper()` on the ASCII strings involved here (character-wise,
so that it evaluates inside the kernel). -/
def pyUpper (s : String) : String := String.mk (s.data.map Char.toUpper)

/-- Python `str.lower()` on the ASCII strings involved here (character-wise,
so that it evaluates inside the kernel). -/
def pyLower (s : String) : String := String.mk (s.data.map Char.toLower)

/-- `InputArg` dataclass (after `__post_init__` defaulting). -/
structure InputArg where
  path : String
  format : PyType
  pydra_field : String
  frequency : Clinical
  description : String
  stored_format : PyType
deriving DecidableEq, Repr

/-- `InputArg.__post_init__`: `pydra_field` defaults to
`path2varname(path)`, `stored_format` defaults to `format` (resolution of
string class names is elided — formats are already type objects here). -/
def InputArg.make (path : String) (format : PyType) (pydra_field : Option String)
    (frequency : Clinical) (description : String) (stored_format : Option PyType) :
    InputArg :=
  ⟨path, format, pydra_field.getD (path2varname path), frequency, description,
   stored_format.getD format⟩

/-- `OutputArg` dataclass (after `__post_init__` defaulting). -/
structure OutputArg where
  path : String
  format : PyType
  pydra_field : String
  stored_format : PyType
deriving DecidableEq, Repr

/-- `OutputArg.__post_init__`: same defaulting as `InputArg`. -/
def OutputArg.make (path : String) (format : PyType) (pydra_field : Option String)
    (stored_format : Option PyType) : OutputArg :=
  ⟨path, format, pydra_field.getD (path2varname path), stored_format.getD format⟩

/-- `ParamArg` dataclass (after `__post_init__` defaulting).  Note: the
dataclass declares no `default` attribute. -/
structure ParamArg where
  name : String
  type : PyType
  pydra_field : String
  required : Bool
  description : String
deriving DecidableEq, Repr

/-- `ParamArg.__post_init__`: `pydra_field` defaults to
`path2varname(name)`. -/
def ParamArg.make (name : String) (type : PyType) (pydra_field : Option String)
    (required : Bool) (description : String) : ParamArg :=
  ⟨name, type, pydra_field.getD (path2varname name), required, description⟩

mutual
/-- `json.dumps` on a configuration value (braces written as escapes). -/
def SVal.dumps : SVal → String
  | .s v => "\"" ++ v ++ "\""
  | .b true => "true"
  | .b false => "false"
  | .i v => toString v
  | .null => "null"
  | .list vs => "[" ++ SList.dumpsItems vs ++ "]"
  | .dict fs => "\x7b" ++ SFields.dumpsItems fs ++ "\x7d"
/-- Comma-joined list items for `SVal.dumps`. -/
def SList.dumpsItems : SList → String
  | .nil => ""
  | .cons v .nil => SVal.dumps v
  | .cons v tl => SVal.dumps v ++ ", " ++ SList.dumpsItems tl
/-- Comma-joined dict items for `SVal.dumps`. -/
def SFields.dumpsItems : SFields → String
  | .nil => ""
  | .cons k v .nil => "\"" ++ k ++ "\": " ++ SVal.dumps v
  | .cons k v tl => "\"" ++ k ++ "\": " ++ SVal.dumps v ++ ", " ++ SFields.dumpsItems tl
end

/-- `' '.join(...)`. -/
def joinSpace (l : List String) : String := String.intercalate " " l

/-- `mapM` over `Except`, written out so that proofs can recurse on the
list. -/
def mapME {α β ε : Type} (f : α → Except ε β) : List α → Except ε (List β)
  | [] => Except.ok []
  | x :: xs => do
    let y ← f x
    let ys ← mapME f xs
    Except.ok (y :: ys)

/-- One iteration of the inputs loop: the `inputs_json` entry and the
`--input` command-line fragment.  The replacement key is derived from the
upper-cased field name; the description and UI type depend on whether the
format is the builtin `str`/`Path`; the fragment calls `.location()` on the
stored and declared formats (an `AttributeError` for builtins). -/
def inputEntry (inpt : InputArg) : Except XnatErr (SVal × String) := do
  let replacementKey := "[" ++ pyUpper inpt.pydra_field ++ "_INPUT]"
  let descAndType ←
    if inpt.format = PyType.pyStr ∨ inpt.format = PyType.pyPath then
      Except.ok ("Match resource [PATH:STORED_DTYPE]: " ++ inpt.description ++ " ",
        "string")
    else do
      let cn ← inpt.format.classNameE
      Except.ok ("Match field (" ++ cn ++ ") [PATH:STORED_DTYPE]: " ++
        inpt.description ++ " ", commandInputTypesGet inpt.format)
  let storedLoc ← inpt.stored_format.locationE
  let fmtLoc ← inpt.format.locationE
  Except.ok
    (SVal.dict (SFields.ofList
      [("name", .s (path2xnatname inpt.path)),
       ("description", .s descAndType.1),
       ("type", .s descAndType.2),
       ("default-value", .s ""),
       ("required", .b true),
       ("user-settable", .b true),
       ("replacement-key", .s replacementKey)]),
     "--input '" ++ replacementKey ++ "' " ++ storedLoc ++ " " ++
       inpt.pydra_field ++ " " ++ fmtLoc ++ " ")

/-- One iteration of the parameters loop.  `ParamArg` declares no `default`
attribute, so the `param.default if not param.required else ""` expression
raises `AttributeError` whenever the parameter is not required. -/
def paramEntry (param : ParamArg) : Except XnatErr (SVal × String) := do
  let desc := "Parameter (" ++ param.type.pyRepr ++ "): " ++ param.description
  let replacementKey := "[" ++ pyUpper param.pydra_field ++ "_PARAM]"
  let defaultValue ←
    if param.required then Except.ok (SVal.s "")
    else Except.error XnatErr.attributeError
  Except.ok
    (SVal.dict (SFields.ofList
      [("name", .s (path2varname param.name)),
       ("description", .s desc),
       ("type", .s (commandInputTypesGet param.type)),
       ("default-value", defaultValue),
       ("required", .b param.required),
       ("user-settable", .b true),
       ("replacement-key", .s replacementKey)]),
     "--parameter " ++ param.pydra_field ++ " '" ++ replacementKey ++ "' ")

/-- `path.split('/')[0]`. -/
def firstPathComponent (s : String) : String :=
  String.mk (s.data.takeWhile (fun c => c ≠ '/'))

/-- One iteration of the outputs loop: the `outputs_json` entry, the output
handler, and the `--output` command-line fragment. -/
def outputEntry (output : OutputArg) : Except XnatErr (SVal × SVal × String) := do
  let label := firstPathComponent output.path
  let ext ← output.format.extE
  let outFname := output.path ++
    (match ext with
     | some e => if e ≠ "" then "." ++ e else ""
     | none => "")
  let loc ← output.format.locationE
  let entry := SVal.dict (SFields.ofList
    [("name", .s output.pydra_field),
     ("description", .s (output.pydra_field ++ " (" ++ loc ++ ")")),
     ("required", .b true),
     ("mount", .s "out"),
     ("path", .s outFname),
     ("glob", SVal.null)])
  let cn ← output.format.classNameE
  let handler := SVal.dict (SFields.ofList
    [("name", .s (output.pydra_field ++ "-resource")),
     ("accepts-command-output", .s output.pydra_field),
     ("via-wrapup-command", SVal.null),
     ("as-a-child-of", .s "SESSION"),
     ("type", .s "Resource"),
     ("label", .s label),
     ("format", .s cn)])
  let storedLoc ← output.stored_format.locationE
  let fmtLoc ← output.format.locationE
  Except.ok (entry, handler,
    "--output " ++ output.path ++ " " ++ storedLoc ++ " " ++ output.pydra_field ++
      " " ++ fmtLoc ++ " ")

/-- One iteration of the configuration loop: the `--configuration`
command-line fragment with the JSON-dumped, quote-escaped value. -/
def configEntry (c : String × SVal) : String :=
  let cvalueJson := (SVal.dumps c.2).replace "\"" "\\\""
  "--configuration " ++ c.1 ++ " '" ++ cvalueJson ++ "' "

/-- The generated XNAT container-service command descriptor (the returned
dictionary of `generate_xnat_cs_command`, with its fixed keys as fields). -/
structure XnatCommand where
  name : String
  description : String
  label : String
  version : String
  schemaVersion : String
  image : String
  index : String
  type : String
  commandLine : String
  overrideEntrypoint : Bool
  mounts : List SVal
  ports : List (String × SVal)
  inputs : List SVal
  outputs : List SVal
  xnat : List SVal
  infoUrl : Option String
deriving DecidableEq, Repr

/-- The always-present `PROJECT_ID` placeholder input. -/
def projectIdInput : SVal :=
  SVal.dict (SFields.ofList
    [("name", .s "PROJECT_ID"),
     ("description", .s "Project ID"),
     ("type", .s "string"),
     ("required", .b true),
     ("user-settable", .b false),
     ("replacement-key", .s "[PROJECT_ID]")])

/-- The `SESSION_LABEL` placeholder input added for session frequency. -/
def sessionLabelInput : SVal :=
  SVal.dict (SFields.ofList
    [("name", .s "SESSION_LABEL"),
     ("description", .s "Imaging session label"),
     ("type", .s "string"),
     ("required", .b true),
     ("user-settable", .b false),
     ("replacement-key", .s "[SESSION_LABEL]")])

/-- The `SESSION` external input of the session-frequency branch. -/
def sessionExternalInput : SVal :=
  SVal.dict (SFields.ofList
    [("name", .s "SESSION"),
     ("description", .s "Imaging session"),
     ("type", .s "Session"),
     ("source", SVal.null),
     ("default-value", SVal.null),
     ("required", .b true),
     ("replacement-key", SVal.null),
     ("sensitive", SVal.null),
     ("provides-value-for-command-input", SVal.null),
     ("provides-files-for-command-mount", .s "in"),
     ("via-setup-command", SVal.null),
     ("user-settable", .b false),
     ("load-children", .b true)])

/-- The derived inputs pulling the session label and project id off the
`SESSION` object. -/
def sessionDerivedInputs : List SVal :=
  [SVal.dict (SFields.ofList
    [("name", .s "__SESSION_LABEL__"),
     ("type", .s "string"),
     ("derived-from-wrapper-input", .s "SESSION"),
     ("derived-from-xnat-object-property", .s "label"),
     ("provides-value-for-command-input", .s "SESSION_LABEL"),
     ("user-settable", .b false)]),
   SVal.dict (SFields.ofList
    [("name", .s "__PROJECT_ID__"),
     ("type", .s "string"),
     ("derived-from-wrapper-input", .s "SESSION"),
     ("derived-from-xnat-object-property", .s "project-id"),
     ("provides-value-for-command-input", .s "PROJECT_ID"),
     ("user-settable", .b false)])]

/-- The fixed `mounts` list of the descriptor. -/
def xnatMounts : List SVal :=
  [SVal.dict (SFields.ofList
    [("name", .s "in"), ("writable", .b false), ("path", .s xnatViaCSInputMount)]),
   SVal.dict (SFields.ofList
    [("name", .s "out"), ("writable", .b true), ("path", .s xnatViaCSOutputMount)]),
   SVal.dict (SFields.ofList
    [("name", .s "work"), ("writable", .b true), ("path", .s xnatViaCSWorkMount)])]

/-- `generate_xnat_cs_command`: checks the frequency against
`VALID_FREQUENCIES` (`ArcanaUsageError` otherwise) before anything is built;
builds the per-input/parameter/output descriptor entries and command-line
fragments, the command line, and the always-present `PROJECT_ID` input; the
`session` branch adds the `SESSION_LABEL` input, the `--ids` fragment and the
session context; every other valid frequency falls into the trailing `else`
that raises `NotImplementedError`, so no descriptor is returned.  The
coercion of tuple/dict argument forms into the dataclasses (`parse_specs`)
is elided: arguments arrive already typed. -/
def generateXnatCsCommand
    (name workflow image_tag : String)
    (inputs : List InputArg) (outputs : List OutputArg)
    (description version info_url : String)
    (parameters : List ParamArg)
    (configuration : List (String × SVal))
    (frequency : Clinical) (registry : String) :
    Except XnatErr XnatCommand := do
  if ¬ VALID_FREQUENCIES.contains frequency then
    throw XnatErr.arcanaUsageError
  let inputPairs ← mapME inputEntry inputs
  let paramPairs ← mapME paramEntry parameters
  let outputTriples ← mapME outputEntry outputs
  let configArgs := configuration.map configEntry
  let inputArgsStr := joinSpace (inputPairs.map (fun p => p.2))
  let outputArgsStr := joinSpace (outputTriples.map (fun t => t.2.2))
  let paramArgsStr := joinSpace (paramPairs.map (fun p => p.2))
  let configArgsStr := joinSpace configArgs
  let cmdline :=
    "conda run --no-capture-output -n arcana " ++
    "run-arcana-pipeline  xnat-cs//[PROJECT_ID] " ++ name ++ " " ++ workflow ++ " " ++
    inputArgsStr ++ outputArgsStr ++ paramArgsStr ++ configArgsStr ++
    "--plugin serial " ++ "--loglevel info " ++
    "--work " ++ xnatViaCSWorkMount ++ " " ++
    "--dataset_space medimage:Clinical " ++
    "--dataset_hierarchy subject,session " ++
    "--frequency " ++ frequency.pyStr ++ " "
  let inputsJson := inputPairs.map (fun p => p.1) ++ paramPairs.map (fun p => p.1) ++
    [projectIdInput]
  let outputsJson := outputTriples.map (fun t => t.1)
  let outputHandlers := outputTriples.map (fun t => t.2.1)
  if frequency = Clinical.session then
    Except.ok
      { name := name
        description := description
        label := name
        version := version
        schemaVersion := "1.0"
        image := image_tag
        index := registry
        type := "docker"
        commandLine := cmdline ++ " --ids [SESSION_LABEL] "
        overrideEntrypoint := true
        mounts := xnatMounts
        ports := []
        inputs := inputsJson ++ [sessionLabelInput]
        outputs := outputsJson
        xnat := [SVal.dict (SFields.ofList
          [("name", .s name),
           ("description", .s description),
           ("contexts", .list (SList.ofList [SVal.s "xnat:imageSessionData"])),
           ("external-inputs", .list (SList.ofList [sessionExternalInput])),
           ("derived-inputs", .list (SList.ofList sessionDerivedInputs)),
           ("output-handlers", .list (SList.ofList outputHandlers))])]
        infoUrl := if info_url ≠ "" then some info_url else none }
  else
    throw XnatErr.notImplementedError

/-! ## Build-spec model — `src/pipeline2app/core/image/base.py` and `app.py`

`App` aggregates the packaging metadata and the commands.  The component
classes (`BaseImage`, `Packages`, `Resource`, `ContainerAuthor`, `License`,
`Docs` from `pipeline2app/core/image/components.py`, and `ContainerCommand`
from `pipeline2app/core/command/base.py`) are not under src/ and are modelled
from the spec (§3, §6); the command-field classes come from
`src/pipeline2app/core/command/components.py`. -/

/-- Serialize `Option String` (`None` → `null`). -/
def optStr : Option String → SVal
  | some v => .s v
  | none => SVal.null

/-- `ColumnDefaults` (`src/pipeline2app/core/command/components.py`):
`datatype`, `row_frequency`, `path`, all optional.  Serialized values of
datatypes and axes are dotted-name strings, so they are carried as strings
here. -/
structure ColumnDefaults where
  datatype : Option String
  row_frequency : Option String
  path : Option String
deriving DecidableEq, Repr

/-- The `configuration` of a `CommandField`: a mapping of extra attributes or
a bool. -/
inductive FieldConfiguration where
  | mapping (fs : List (String × SVal))
  | flag (b : Bool)
deriving DecidableEq, Repr

/-- Serialize a `FieldConfiguration`. -/
def FieldConfiguration.asSVal : FieldConfiguration → SVal
  | .mapping fs => .dict (SFields.ofList fs)
  | .flag b => .b b

/-- `CommandInput` (`src/pipeline2app/core/command/components.py`): `name`,
`field` (defaults to the name), `datatype`, `help`, `configuration`,
`column_defaults`. -/
structure CommandInput where
  name : String
  field : String
  datatype : String
  help : String
  configuration : FieldConfiguration
  column_defaults : ColumnDefaults
deriving DecidableEq, Repr

/-- `CommandOutput` (same shape as `CommandInput`). -/
structure CommandOutput where
  name : String
  field : String
  datatype : String
  help : String
  configuration : FieldConfiguration
  column_defaults : ColumnDefaults
deriving DecidableEq, Repr

/-- `CommandParameter`: a scalar-typed field with `required` and `default`. -/
structure CommandParameter where
  name : String
  field : String
  datatype : String
  help : String
  configuration : FieldConfiguration
  required : Bool
  default : SVal
deriving DecidableEq, Repr

/-- Serialize `ColumnDefaults`. -/
def ColumnDefaults.asSVal (c : ColumnDefaults) : SVal :=
  .dict (SFields.ofList
    [("datatype", optStr c.datatype),
     ("row_frequency", optStr c.row_frequency),
     ("path", optStr c.path)])

/-- Serialize a `CommandInput`. -/
def CommandInput.asSVal (f : CommandInput) : SVal :=
  .dict (SFields.ofList
    [("name", .s f.name),
     ("field", .s f.field),
     ("datatype", .s f.datatype),
     ("help", .s f.help),
     ("configuration", f.configuration.asSVal),
     ("column_defaults", f.column_defaults.asSVal)])

/-- Serialize a `CommandOutput`. -/
def CommandOutput.asSVal (f : CommandOutput) : SVal :=
  .dict (SFields.ofList
    [("name", .s f.name),
     ("field", .s f.field),
     ("datatype", .s f.datatype),
     ("help", .s f.help),
     ("configuration", f.configuration.asSVal),
     ("column_defaults", f.column_defaults.asSVal)])

/-- Serialize a `CommandParameter`. -/
def CommandParameter.asSVal (f : CommandParameter) : SVal :=
  .dict (SFields.ofList
    [("name", .s f.name),
     ("field", .s f.field),
     ("datatype", .s f.datatype),
     ("help", .s f.help),
     ("configuration", f.configuration.asSVal),
     ("required", .b f.required),
     ("default", f.default)])

/-- Modelled from the spec: `ContainerCommand`
(`pipeline2app/core/command/base.py` is not under src/); §3 gives `name`,
`task`, `row_frequency`, `inputs`, `outputs`, `parameters`, `configuration`.
The back-reference to the owning image is excluded from serialization by the
`asdict` filter and is not carried here. -/
structure ContainerCommand where
  name : String
  task : String
  row_frequency : String
  inputs : List CommandInput
  outputs : List CommandOutput
  parameters : List CommandParameter
  configuration : List (String × SVal)
deriving DecidableEq, Repr

/-- Serialize a `ContainerCommand`. -/
def ContainerCommand.asSVal (c : ContainerCommand) : SVal :=
  .dict (SFields.ofList
    [("name", .s c.name),
     ("task", .s c.task),
     ("row_frequency", .s c.row_frequency),
     ("inputs", .list (SList.ofList (c.inputs.map CommandInput.asSVal))),
     ("outputs", .list (SList.ofList (c.outputs.map CommandOutput.asSVal))),
     ("parameters", .list (SList.ofList (c.parameters.map CommandParameter.asSVal))),
     ("configuration", .dict (SFields.ofList c.configuration))])

/-- Modelled from the spec: `BaseImage`
(`pipeline2app/core/image/components.py` is not under src/); `base.py` uses
its `reference`, `package_manager`, `python` and `conda_env`. -/
structure BaseImage where
  name : String
  tag : Option String
  package_manager : String
  python : Option String
  conda_env : Option String
deriving DecidableEq, Repr

/-- Serialize a `BaseImage`. -/
def BaseImage.asSVal (b : BaseImage) : SVal :=
  .dict (SFields.ofList
    [("name", .s b.name),
     ("tag", optStr b.tag),
     ("package_manager", .s b.package_manager),
     ("python", optStr b.python),
     ("conda_env", optStr b.conda_env)])

/-- Modelled from the spec: a system package entry (components.py not under
src/). -/
structure SystemPackage where
  name : String
  version : Option String
deriving DecidableEq, Repr

/-- Modelled from the spec: a pip package entry; `base.py` uses `name`,
`version`, `url`, `file_path` and `extras`. -/
structure PipPackage where
  name : String
  version : Option String
  url : Option String
  file_path : Option String
  extras : List String
deriving DecidableEq, Repr

/-- Modelled from the spec: a conda package entry. -/
structure CondaPackage where
  name : String
  version : Option String
deriving DecidableEq, Repr

/-- Modelled from the spec: a Neurodocker template entry. -/
structure NeurodockerTemplate where
  name : String
  version : String
deriving DecidableEq, Repr

/-- Modelled from the spec: the `Packages` aggregate (system / pip / conda /
neurodocker). -/
structure Packages where
  system : List SystemPackage
  pip : List PipPackage
  conda : List CondaPackage
  neurodocker : List NeurodockerTemplate
deriving DecidableEq, Repr

/-- Serialize a `SystemPackage`. -/
def SystemPackage.asSVal (x : SystemPackage) : SVal :=
  .dict (SFields.ofList [("name", .s x.name), ("version", optStr x.version)])

/-- Serialize a `PipPackage`. -/
def PipPackage.asSVal (x : PipPackage) : SVal :=
  .dict (SFields.ofList
    [("name", .s x.name),
     ("version", optStr x.version),
     ("url", optStr x.url),
     ("file_path", optStr x.file_path),
     ("extras", .list (SList.ofList (x.extras.map SVal.s)))])

/-- Serialize a `CondaPackage`. -/
def CondaPackage.asSVal (x : CondaPackage) : SVal :=
  .dict (SFields.ofList [("name", .s x.name), ("version", optStr x.version)])

/-- Serialize a `NeurodockerTemplate`. -/
def NeurodockerTemplate.asSVal (x : NeurodockerTemplate) : SVal :=
  .dict (SFields.ofList [("name", .s x.name), ("version", .s x.version)])

/-- Serialize the `Packages` aggregate. -/
def Packages.asSVal (p : Packages) : SVal :=
  .dict (SFields.ofList
    [("system", .list (SList.ofList (p.system.map SystemPackage.asSVal))),
     ("pip", .list (SList.ofList (p.pip.map PipPackage.asSVal))),
     ("conda", .list (SList.ofList (p.conda.map CondaPackage.asSVal))),
     ("neurodocker", .list (SList.ofList (p.neurodocker.map NeurodockerTemplate.asSVal)))])

/-- Modelled from the spec: a static `Resource` (components.py not under
src/); `base.py` uses `name` and `path`. -/
structure Resource where
  name : String
  path : String
deriving DecidableEq, Repr

/-- Serialize a `Resource`. -/
def Resource.asSVal (r : Resource) : SVal :=
  .dict (SFields.ofList [("name", .s r.name), ("path", .s r.path)])

/-- Modelled from the spec: a `ContainerAuthor` (name and email). -/
structure ContainerAuthor where
  name : String
  email : String
deriving DecidableEq, Repr

/-- Serialize a `ContainerAuthor`. -/
def ContainerAuthor.asSVal (a : ContainerAuthor) : SVal :=
  .dict (SFields.ofList [("name", .s a.name), ("email", .s a.email)])

/-- Modelled from the spec: a `License` (name, destination, description,
info url, optional source path, whether it is stored in the image). -/
structure License where
  name : String
  destination : String
  description : String
  info_url : String
  source : Option String
  store_in_image : Bool
deriving DecidableEq, Repr

/-- Serialize a `License`. -/
def License.asSVal (l : License) : SVal :=
  .dict (SFields.ofList
    [("name", .s l.name),
     ("destination", .s l.destination),
     ("description", .s l.description),
     ("info_url", .s l.info_url),
     ("source", optStr l.source),
     ("store_in_image", .b l.store_in_image)])

/-- Modelled from the spec: the `Docs` component (info url and optional
description). -/
structure Docs where
  info_url : String
  description : Option String
deriving DecidableEq, Repr

/-- Serialize `Docs`. -/
def Docs.asSVal (d : Docs) : SVal :=
  .dict (SFields.ofList
    [("info_url", .s d.info_url), ("description", optStr d.description)])

/-- The `App` build spec (`pipeline2app/core/image/app.py` over the
`P2AImage` base): the `P2AImage` fields in declaration order, then the `App`
fields; `loaded_from` carries provenance and is excluded from
serialization. -/
structure App where
  name : String
  version : Version
  base_image : BaseImage
  packages : Packages
  resources : List Resource
  org : Option String
  registry : String
  readme : Option String
  labels : Option (List (String × String))
  schema_version : String
  title : String
  authors : List ContainerAuthor
  licenses : List License
  docs : Docs
  commands : List ContainerCommand
  loaded_from : Option String
  pipeline2app_version : String
deriving DecidableEq, Repr

/-- Modelled from the spec: `DOCKER_HUB` from `pipeline2app.core.utils` (not
under src/) — the canonical Docker Hub registry host, left out of image
paths. -/
def DOCKER_HUB : String := "docker.io"

/-- Modelled from the spec: `__version__` of the build tool itself (package
metadata, not under src/); `compare_specs` inserts it when a prepared dict
has no `pipeline2app_version` key. -/
def PIPELINE2APP_VERSION : String := "2.0"

/-- `P2AImage.tag`: the string form of the version. -/
def App.tag (a : App) : String := Version.tostr a.version

/-- `P2AImage.path`: the registry prefix is dropped for Docker Hub, the
organisation prefix is dropped when unset, and the result is lower-cased. -/
def App.path (a : App) : String :=
  let pfx := if a.registry ≠ DOCKER_HUB then a.registry ++ "/" else ""
  let orgStr :=
    match a.org with
    | some o => if o ≠ "" then o ++ "/" else ""
    | none => ""
  pyLower (pfx ++ orgStr ++ a.name)

/-- `P2AImage.reference`: `f"{self.path}:{self.tag}"`. -/
def App.reference (a : App) : String := a.path ++ ":" ++ a.tag

/-- `P2AImage.asdict` on an `App`: the attrs fields in declaration order,
each through its serializer (`Version.tostr` for the version, dotted-string
and list-of-dict forms for the components); `loaded_from` is marked
`asdict: False` and the image back-references inside commands are filtered,
so neither appears. -/
def App.asdict (a : App) : List (String × SVal) :=
  [("name", .s a.name),
   ("version", .s (Version.tostr a.version)),
   ("base_image", a.base_image.asSVal),
   ("packages", a.packages.asSVal),
   ("resources", .list (SList.ofList (a.resources.map Resource.asSVal))),
   ("org", optStr a.org),
   ("registry", .s a.registry),
   ("readme", optStr a.readme),
   ("labels",
     match a.labels with
     | some ls => .dict (SFields.ofList (ls.map (fun kv => (kv.1, SVal.s kv.2))))
     | none => SVal.null),
   ("schema_version", .s a.schema_version),
   ("title", .s a.title),
   ("authors", .list (SList.ofList (a.authors.map ContainerAuthor.asSVal))),
   ("licenses", .list (SList.ofList (a.licenses.map License.asSVal))),
   ("docs", a.docs.asSVal),
   ("commands", .list (SList.ofList (a.commands.map ContainerCommand.asSVal))),
   ("pipeline2app_version", .s a.pipeline2app_version)]

/-- `k.startswith("_")` (written out on the character list so it evaluates
inside the kernel). -/
def startsWithUnderscore (k : String) : Bool :=
  match k.data with
  | '_' :: _ => true
  | _ => false

/-- The filter inside `compare_specs.prep`: drop keys starting with `_` and
falsy values, keeping booleans
(`not k.startswith("_") and (v or isinstance(v, bool))`). -/
def keepInPrep (kv : String × SVal) : Bool :=
  (!startsWithUnderscore kv.1) && (pyTruthy kv.2 || isBoolVal kv.2)

/-- `prep` inside `P2AImage.compare_specs`: filter, then either ensure a
`pipeline2app_version` key (inserting the running tool's version when
missing) or `del` both version keys — `del` raises `KeyError` when the key
was filtered out as falsy. -/
def prep (check_versions : Bool) (s : List (String × SVal)) :
    Except PyErr (List (String × SVal)) :=
  let dct := s.filter keepInPrep
  if check_versions then
    .ok (if containsKey dct "pipeline2app_version" then dct
         else dct ++ [("pipeline2app_version", .s PIPELINE2APP_VERSION)])
  else do
    let d1 ← pyDel dct "pipeline2app_version"
    pyDel d1 "version"

/-- `P2AImage.compare_specs`: serialize both specs, `prep` each with the
`check_versions` flag, and return the structural difference (the diff object
is represented by the list of differing top-level keys; it is empty exactly
when the `DeepDiff` is). -/
def App.compare_specs (self other : App) (check_versions : Bool) :
    Except PyErr (List String) := do
  let sdict := self.asdict
  let odict := other.asdict
  let sd ← prep check_versions sdict
  let od ← prep check_versions odict
  .ok (deepDiffKeys sd od)

/-- `P2AImage.matches_image`: when no spec can be extracted from the image
the result is `False` (assume different, build); otherwise the result is
whether the `check_versions=False` diff is empty.  `extractSpec` stands for
`extract_file_from_docker_image` + `load` on the registry state (§6). -/
def App.matchesImage (self : App) (extractSpec : String → Option App)
    (imageReference : String) : Except PyErr Bool :=
  match extractSpec imageReference with
  | none => .ok false
  | some built => do
    let changelog ← self.compare_specs built false
    .ok (changelog = [])

/-! ## Build reconciliation — the `--check-registry` block of `make`
(`src/pipeline2app/core/cli.py`, lines 312–357) -/

/-- The per-spec loop of the `--check-registry` block.  An absent image (or
an unretrievable embedded spec) appends the spec to `to_build`.  For a
present image the code calls
`image_spec.compare_specs(built_spec, check_version=True)`, but the
parameter of `P2AImage.compare_specs` is named `check_versions`, so Python
raises `TypeError` (unexpected keyword argument) before any comparison runs;
the skip (empty changelog) and conflict (non-empty changelog) branches after
the call are unreachable for present images.  Returns `to_build` and the
accumulated conflicting references. -/
def checkRegistryLoop (extractSpec : String → Option App) :
    List App → Except PyErr (List App × List String)
  | [] => .ok ([], [])
  | spec :: rest =>
    match extractSpec spec.reference with
    | none => do
      let (toBuild, conflicting) ← checkRegistryLoop extractSpec rest
      .ok (spec :: toBuild, conflicting)
    | some _ => .error .typeError

/-- The rest of the `--check-registry` block: accumulated conflicts abort the
batch with a single build error, otherwise only the specs still in Build
state proceed. -/
def makeCheckRegistry (extractSpec : String → Option App) (specs : List App) :
    Except PyErr (List App) := do
  let (toBuild, conflicting) ← checkRegistryLoop extractSpec specs
  if conflicting ≠ [] then .error .buildError else .ok toBuild

/-! ## Supporting lemmas -/

theorem pyChrsCmp_self : ∀ l : List Char, pyChrsCmp l l = 0
  | [] => rfl
  | c :: cs => by simp [pyChrsCmp, pyChrsCmp_self cs]

theorem pyStrCmp_self (s : String) : pyStrCmp s s = 0 :=
  pyChrsCmp_self s.data

theorem pyListNatCmp_self : ∀ l : List Nat, pyListNatCmp l l = 0
  | [] => rfl
  | n :: ns => by simp [pyListNatCmp, pyListNatCmp_self ns]

theorem except_bind_ok {ε α β : Type} (a : α) (f : α → Except ε β) :
    (Except.ok a >>= f) = f a := rfl

theorem except_bind_error {ε α β : Type} (e : ε) (f : α → Except ε β) :
    ((Except.error e : Except ε α) >>= f) = Except.error e := rfl

theorem mapME_ok_length {α β ε : Type} {f : α → Except ε β} :
    ∀ {l : List α} {r : List β}, mapME f l = Except.ok r → r.length = l.length := by
  intro l
  induction l with
  | nil => intro r h; simp [mapME] at h; simp [← h]
  | cons x xs ih =>
    intro r h
    simp only [mapME] at h
    cases hx : f x with
    | error e => simp [hx, except_bind_error] at h
    | ok y =>
      cases hxs : mapME f xs with
      | error e => simp [hx, hxs, except_bind_ok, except_bind_error] at h
      | ok ys =>
        simp [hx, hxs, except_bind_ok] at h
        simp [← h, ih hxs]

theorem mapME_error_mem {α β ε : Type} {f : α → Except ε β} :
    ∀ {l : List α} {e : ε}, mapME f l = Except.error e → ∃ x ∈ l, f x = Except.error e := by
  intro l
  induction l with
  | nil => intro e h; simp [mapME] at h
  | cons x xs ih =>
    intro e h
    simp only [mapME] at h
    cases hx : f x with
    | error e2 =>
      simp [hx, except_bind_error] at h
      exact ⟨x, List.mem_cons_self x xs, by rw [hx, h]⟩
    | ok y =>
      cases hxs : mapME f xs with
      | error e2 =>
        simp [hx, hxs, except_bind_ok, except_bind_error] at h
        obtain ⟨z, hz, hfz⟩ := ih hxs
        exact ⟨z, List.mem_cons_of_mem x hz, by rw [hfz, h]⟩
      | ok ys => simp [hx, hxs, except_bind_ok] at h

theorem containsKey_of_mem {l : List (String × SVal)} {k : String} {v : SVal}
    (h : (k, v) ∈ l) : containsKey l k = true := by
  simp only [containsKey, List.any_eq_true]
  exact ⟨(k, v), h, by simp⟩

theorem containsKey_filter_of_mem {l : List (String × SVal)} {k : String} {v : SVal}
    {p : String × SVal → Bool} (h : (k, v) ∈ l) (hp : p (k, v) = true) :
    containsKey (l.filter p) k = true :=
  containsKey_of_mem (List.mem_filter.mpr ⟨h, hp⟩)

theorem nodupKeys_filter {l : List (String × SVal)} {p : String × SVal → Bool}
    (h : (l.map Prod.fst).Nodup) : ((l.filter p).map Prod.fst).Nodup :=
  ((List.filter_sublist l).map Prod.fst).nodup h

theorem lookupKey_of_mem_nodup {l : List (String × SVal)} {k : String} {v : SVal}
    (hnd : (l.map Prod.fst).Nodup) (h : (k, v) ∈ l) : lookupKey l k = some v := by
  induction l with
  | nil => simp at h
  | cons kv rest ih =>
    simp only [List.map_cons, List.nodup_cons] at hnd
    rcases List.mem_cons.mp h with heq | hmem
    · simp [lookupKey, List.find?, ← heq]
    · have hne : kv.1 ≠ k := by
        intro he
        exact hnd.1 (he ▸ (List.mem_map.mpr ⟨(k, v), hmem, rfl⟩))
      simp only [lookupKey, List.find?, decide_eq_true_eq]
      rw [show (decide (kv.1 = k)) = false by simpa using hne]
      exact ih hnd.2 hmem

theorem eraseKey_eq_filter {k : String} :
    ∀ {l : List (String × SVal)}, (l.map Prod.fst).Nodup →
      eraseKey l k = l.filter (fun kv => kv.1 ≠ k) := by
  intro l
  induction l with
  | nil => intro _; rfl
  | cons kv rest ih =>
    intro hnd
    simp only [List.map_cons, List.nodup_cons] at hnd
    by_cases hk : kv.1 = k
    · have hrest : rest.filter (fun kv => decide (kv.1 ≠ k)) = rest := by
        apply List.filter_eq_self.mpr
        intro a ha
        simp only [decide_eq_true_eq]
        intro hak
        exact hnd.1 (hk ▸ hak ▸ (List.mem_map.mpr ⟨a, ha, rfl⟩))
      simp only [ne_eq, decide_not] at hrest
      simp [eraseKey, hk, List.filter_cons, hrest]
    · simp [eraseKey, hk, List.filter_cons, ih hnd.2]

theorem diffKeys_self {d : List (String × SVal)} (hnd : (d.map Prod.fst).Nodup) :
    deepDiffKeys d d = [] := by
  simp only [deepDiffKeys, List.append_eq_nil]
  constructor
  · apply List.filterMap_eq_nil_iff.mpr
    intro kv hkv
    rw [lookupKey_of_mem_nodup hnd (by simpa using hkv)]
    simp [SVal.equivReflSVal]
  · apply List.filterMap_eq_nil_iff.mpr
    intro kv hkv
    simp [containsKey_of_mem (show (kv.1, kv.2) ∈ d by simpa using hkv)]

theorem diffKeys_ne_nil {a b : List (String × SVal)} {k : String} {v w : SVal}
    (ha : (k, v) ∈ a) (hb : lookupKey b k = some w) (hne : SVal.equiv v w = false) :
    deepDiffKeys a b ≠ [] := by
  simp only [deepDiffKeys, ne_eq, List.append_eq_nil, not_and]
  intro h1
  exfalso
  have := List.filterMap_eq_nil_iff.mp h1 (k, v) ha
  simp [hb, hne] at this

deriving instance DecidableEq for Except

/-! ## Claim theorems — version model -/

/-- Claim C2: the spec's ordering chain requires
`"1.0.0" < "1.0-post1"`, but the release class of `version_re` has no `.`,
so both strings fail the regex, parse as opaque string releases with no
suffix, and compare as plain strings: `"1.0.0" > "1.0-post1"` (`.` sorts
after `-`).  The repository's own `test_sort_versions` asserts the spec's
chain, so this is a code bug, evidenced here by evaluating the embedded
parser and comparison at the failing inputs. -/
theorem versionChainBreaksOnCode :
    Version.parse "1.0-beta0" = some ⟨Release.str "1.0-beta0", "", 0⟩ ∧
    Version.parse "1.0.0" = some ⟨Release.str "1.0.0", "", 0⟩ ∧
    Version.parse "1.0-post1" = some ⟨Release.str "1.0-post1", "", 0⟩ ∧
    Version.compare ⟨Release.str "1.0-beta0", "", 0⟩ ⟨Release.str "1.0.0", "", 0⟩ =
      Except.ok (-1) ∧
    Version.compare ⟨Release.str "1.0.0", "", 0⟩ ⟨Release.str "1.0-post1", "", 0⟩ =
      Except.ok 1 := by
  refine ⟨by decide, by decide, by decide, by decide, by decide⟩

/-- Claim C3: `"1.0"` splits on `.` into the all-numeric segments `1` and
`0`, yet `Version.parse "1.0"` keeps the release as the opaque string
`"1.0"` — the release class of `version_re` cannot match the dot, so the
numeric-tuple conversion the claim describes never sees a dotted release.
The canonical-rendering round trip does hold at this input. -/
theorem dottedReleaseNotSplitOnCode :
    Version.parse "1.0" = some ⟨Release.str "1.0", "", 0⟩ ∧
    (pySplitDot "1.0".data).mapM pyInt = some [1, 0] ∧
    (Version.parse "1.0").map (fun v => Version.parse (Version.tostr v)) =
      some (Version.parse "1.0") := by
  refine ⟨by decide, by decide, by decide⟩

/-- Claim C8: `Version.__eq__` with a `Version` right operand never assigns
`other_version`, so the final `self.compare(other_version) == 0` raises
`NameError`; with a string operand the string is wrapped by the raw
constructor rather than parsed, so comparing a tuple-release version with
its own textual form raises `ValueError` instead of returning `True`. -/
theorem versionEqRaisesOnCode :
    Version.parse "1" = some ⟨Release.ints [1], "", 0⟩ ∧
    Version.pyEq ⟨Release.ints [1], "", 0⟩ (EqOperand.ver ⟨Release.ints [1], "", 0⟩) =
      Except.error PyErr.nameError ∧
    Version.pyEq ⟨Release.ints [1], "", 0⟩ (EqOperand.str "1") =
      Except.error PyErr.valueError := by
  refine ⟨by decide, by decide, by decide⟩

/-- Claim C10: `bump_postfix` keeps the release, adds one to the suffix
number, keeps a non-empty suffix label and turns an empty label into
`"post"`, and the result is strictly greater under `compare` (for the
suffix labels of the data model, §3). -/
theorem bumpPostStrictlyGreater (v : Version)
    (h : v.suffix_label = "" ∨ v.suffix_label ∈ SUFFIX_LABELS) :
    v.bumpPost.release = v.release ∧
    v.bumpPost.suffix_number = v.suffix_number + 1 ∧
    v.bumpPost.suffix_label = (if v.suffix_label = "" then "post" else v.suffix_label) ∧
    Version.compare v v.bumpPost = Except.ok (-1) := by
  obtain ⟨r, lab, n⟩ := v
  refine ⟨rfl, rfl, ?_, ?_⟩
  · by_cases h0 : lab = "" <;> simp [Version.bumpPost, h0]
  · simp only [SUFFIX_LABELS, List.mem_cons, List.not_mem_nil, or_false] at h
    cases r <;>
      (rcases h with h0 | h0 | h0 | h0 | h0 <;> subst h0 <;>
        simp [Version.compare, Version.bumpPost, pyListNatCmp_self, pyStrCmp_self,
          pure, Except.pure,
          show labelIndexE "alpha" = Except.ok 0 from rfl,
          show labelIndexE "beta" = Except.ok 1 from rfl,
          show labelIndexE "rc" = Except.ok 2 from rfl,
          show labelIndexE "post" = Except.ok 3 from rfl] <;> rfl)

/-- Witness for C10 at a concrete version. -/
theorem bumpPostStrictlyGreaterWitness :
    ((⟨Release.ints [1], "", 0⟩ : Version).suffix_label = "" ∨
      (⟨Release.ints [1], "", 0⟩ : Version).suffix_label ∈ SUFFIX_LABELS) ∧
    Version.compare ⟨Release.ints [1], "", 0⟩
      (⟨Release.ints [1], "", 0⟩ : Version).bumpPost = Except.ok (-1) :=
  ⟨Or.inl rfl,
   (bumpPostStrictlyGreater ⟨Release.ints [1], "", 0⟩ (Or.inl rfl)).2.2.2⟩

/-! ## Claim theorems — XNAT command compiler -/

theorem throw_eq {ε α : Type} (e : ε) : (throw e : Except ε α) = Except.error e := rfl

theorem inputEntry_error_attr {i : InputArg} {e : XnatErr}
    (h : inputEntry i = Except.error e) : e = XnatErr.attributeError := by
  cases hf : i.format <;> cases hs : i.stored_format <;>
    simp_all [inputEntry, PyType.classNameE, PyType.locationE,
      except_bind_ok, except_bind_error]

theorem paramEntry_error_attr {p : ParamArg} {e : XnatErr}
    (h : paramEntry p = Except.error e) : e = XnatErr.attributeError := by
  cases hr : p.required <;>
    simp_all [paramEntry, except_bind_ok, except_bind_error]

theorem outputEntry_error_attr {o : OutputArg} {e : XnatErr}
    (h : outputEntry o = Except.error e) : e = XnatErr.attributeError := by
  cases hf : o.format <;> cases hs : o.stored_format <;>
    simp_all [outputEntry, PyType.classNameE, PyType.locationE, PyType.extE,
      except_bind_ok, except_bind_error]

/-- Claim C5: compiling a command at any non-session row frequency fails and
returns no descriptor: a frequency outside `VALID_FREQUENCIES` is rejected
with the usage error before anything is built, and `dataset` — the only
other valid frequency — reaches the trailing `else` and signals
`NotImplementedError` (or an `AttributeError` already raised while building
the fragments, which equally aborts before a descriptor exists). -/
theorem nonSessionFrequencyFails
    (name workflow image_tag : String) (inputs : List InputArg)
    (outputs : List OutputArg) (description version info_url : String)
    (parameters : List ParamArg) (configuration : List (String × SVal))
    (frequency : Clinical) (registry : String)
    (h : frequency ≠ Clinical.session) :
    (generateXnatCsCommand name workflow image_tag inputs outputs description
        version info_url parameters configuration frequency registry).isOk = false ∧
    (¬ VALID_FREQUENCIES.contains frequency = true →
      generateXnatCsCommand name workflow image_tag inputs outputs description
        version info_url parameters configuration frequency registry =
        Except.error XnatErr.arcanaUsageError) ∧
    (frequency = Clinical.dataset →
      generateXnatCsCommand name workflow image_tag inputs outputs description
          version info_url parameters configuration frequency registry =
        Except.error XnatErr.notImplementedError ∨
      generateXnatCsCommand name workflow image_tag inputs outputs description
          version info_url parameters configuration frequency registry =
        Except.error XnatErr.attributeError) := by
  by_cases hv : VALID_FREQUENCIES.contains frequency = true
  · have hfreq : frequency = Clinical.dataset := by
      cases frequency <;> simp_all [VALID_FREQUENCIES]
    subst hfreq
    have hmem : Clinical.dataset ∈ VALID_FREQUENCIES := by decide
    have hgen : generateXnatCsCommand name workflow image_tag inputs outputs description
        version info_url parameters configuration Clinical.dataset registry =
        Except.error XnatErr.notImplementedError ∨
        generateXnatCsCommand name workflow image_tag inputs outputs description
        version info_url parameters configuration Clinical.dataset registry =
        Except.error XnatErr.attributeError := by
      unfold generateXnatCsCommand
      cases h1 : mapME inputEntry inputs with
      | error e =>
        obtain ⟨x, _, hx⟩ := mapME_error_mem h1
        right
        simp [hmem, h1, throw_eq, except_bind_error, except_bind_ok,
          inputEntry_error_attr hx]
      | ok r1 =>
        cases h2 : mapME paramEntry parameters with
        | error e =>
          obtain ⟨x, _, hx⟩ := mapME_error_mem h2
          right
          simp [hmem, h1, h2, throw_eq, except_bind_error, except_bind_ok,
            paramEntry_error_attr hx]
        | ok r2 =>
          cases h3 : mapME outputEntry outputs with
          | error e =>
            obtain ⟨x, _, hx⟩ := mapME_error_mem h3
            right
            simp [hmem, h1, h2, h3, throw_eq, except_bind_error, except_bind_ok,
              outputEntry_error_attr hx]
          | ok r3 =>
            left
            simp [hmem, h1, h2, h3, throw_eq, except_bind_error, except_bind_ok]
    refine ⟨?_, ?_, fun _ => hgen⟩
    · rcases hgen with hg | hg <;> simp [hg, Except.isOk, Except.toBool]
    · intro hc; exact absurd hv hc
  · have hnm : frequency ∉ VALID_FREQUENCIES := by simpa using hv
    have hgen : generateXnatCsCommand name workflow image_tag inputs outputs description
        version info_url parameters configuration frequency registry =
        Except.error XnatErr.arcanaUsageError := by
      unfold generateXnatCsCommand
      simp [hnm, throw_eq, except_bind_error]
    refine ⟨by simp [hgen, Except.isOk, Except.toBool], fun _ => hgen, fun hd => ?_⟩
    · subst hd; simp [VALID_FREQUENCIES] at hnm

/-- Witness for C5 at the `dataset` frequency on a concrete command. -/
theorem nonSessionFrequencyFailsWitness :
    (Clinical.dataset ≠ Clinical.session) ∧
    (generateXnatCsCommand "n" "mod:task" "img:1.0" [] [] "d" "1.0" "u" [] []
      Clinical.dataset "docker.io").isOk = false :=
  ⟨by decide,
   (nonSessionFrequencyFails "n" "mod:task" "img:1.0" [] [] "d" "1.0" "u" [] []
     Clinical.dataset "docker.io" (by decide)).1⟩

/-- Claim C1 (amended): for a session-frequency command with N inputs, M
outputs and P parameters, any descriptor the compiler returns has exactly
N + P + 2 entries in `inputs` — the data inputs, the parameters, and the
always-present `PROJECT_ID` and `SESSION_LABEL` placeholders; outputs
contribute no `inputs` entries — and exactly M entries in `outputs`. -/
theorem sessionDescriptorCounts
    (name workflow image_tag : String) (inputs : List InputArg)
    (outputs : List OutputArg) (description version info_url : String)
    (parameters : List ParamArg) (configuration : List (String × SVal))
    (registry : String) (d : XnatCommand)
    (h : generateXnatCsCommand name workflow image_tag inputs outputs description
      version info_url parameters configuration Clinical.session registry =
      Except.ok d) :
    d.inputs.length = inputs.length + parameters.length + 2 ∧
    d.outputs.length = outputs.length := by
  have hmem : Clinical.session ∈ VALID_FREQUENCIES := by decide
  unfold generateXnatCsCommand at h
  cases h1 : mapME inputEntry inputs with
  | error e => simp [hmem, h1, throw_eq, except_bind_error, except_bind_ok] at h
  | ok r1 =>
    cases h2 : mapME paramEntry parameters with
    | error e =>
      simp [hmem, h1, h2, throw_eq, except_bind_error, except_bind_ok] at h
    | ok r2 =>
      cases h3 : mapME outputEntry outputs with
      | error e =>
        simp [hmem, h1, h2, h3, throw_eq, except_bind_error, except_bind_ok] at h
      | ok r3 =>
        rw [if_neg (by decide)] at h
        simp only [h1, h2, h3, except_bind_ok,
          show (pure PUnit.unit : Except XnatErr PUnit) = Except.ok PUnit.unit from rfl] at h
        rw [if_pos trivial, Except.ok.injEq] at h
        subst h
        refine ⟨?_, ?_⟩ <;>
          simp [List.length_append, List.length_map,
            mapME_ok_length h1, mapME_ok_length h2, mapME_ok_length h3] <;>
          omega

/-- A concrete file format for concrete evaluations. -/
def niftiGz : PyType := PyType.fileFormat "NiftiGz" "medimage:NiftiGz" (some "nii.gz")

/-- A concrete input argument. -/
def cInput : InputArg :=
  ⟨"T1w", niftiGz, "in_file", Clinical.session, "input scan", niftiGz⟩

/-- A concrete output argument. -/
def cOutput : OutputArg := ⟨"derivs/out", niftiGz, "out_file", niftiGz⟩

/-- A concrete (required) parameter argument. -/
def cParam : ParamArg := ⟨"duplicates", PyType.pyInt, "duplicates", true, "number of copies"⟩

/-- Claim C1 counterexample: a session-frequency command with one input, one
output and one parameter compiles to a descriptor whose `inputs` list has 4
entries (1 input + 1 parameter + PROJECT_ID + SESSION_LABEL), not the
N+M+P+2 = 5 the claim states: outputs contribute no `inputs` entries. -/
theorem sessionInputsCountCex :
    (generateXnatCsCommand "concat" "mod:task" "img:1.0" [cInput] [cOutput] "desc"
        "1.0" "http://doc" [cParam] [] Clinical.session "docker.io").map
      (fun d => (d.inputs.length, d.outputs.length)) = Except.ok (4, 1) ∧
    (4 : Nat) ≠ 1 + 1 + 1 + 2 := by
  refine ⟨by decide, by decide⟩

/-- The default descriptor used only to extract the witness descriptor. -/
def emptyXnatCommand : XnatCommand :=
  { name := "", description := "", label := "", version := "", schemaVersion := "",
    image := "", index := "", type := "", commandLine := "", overrideEntrypoint := false,
    mounts := [], ports := [], inputs := [], outputs := [], xnat := [], infoUrl := none }

/-- The descriptor compiled for the C1 witness. -/
def cDescriptor : XnatCommand :=
  (generateXnatCsCommand "concat" "mod:task" "img:1.0" [cInput] [cOutput] "desc"
    "1.0" "http://doc" [cParam] [] Clinical.session "docker.io").toOption.getD
    emptyXnatCommand

/-- Witness for the amended C1 at a concrete session command. -/
theorem sessionDescriptorCountsWitness :
    generateXnatCsCommand "concat" "mod:task" "img:1.0" [cInput] [cOutput] "desc"
      "1.0" "http://doc" [cParam] [] Clinical.session "docker.io" =
      Except.ok cDescriptor ∧
    (cDescriptor.inputs.length = [cInput].length + [cParam].length + 2 ∧
      cDescriptor.outputs.length = [cOutput].length) :=
  ⟨by decide,
   sessionDescriptorCounts "concat" "mod:task" "img:1.0" [cInput] [cOutput] "desc"
     "1.0" "http://doc" [cParam] [] "docker.io" cDescriptor (by decide)⟩

/-! ## Claim theorems — build spec and reconciliation -/

/-- A concrete container command for concrete build specs. -/
def cCommand : ContainerCommand :=
  { name := "concatenate"
    task := "pipeline2app.testing.tasks:concatenate"
    row_frequency := "common:Samples[sample]"
    inputs := [{ name := "in_file1", field := "in_file1", datatype := "text/text-file",
                 help := "first input", configuration := FieldConfiguration.mapping [],
                 column_defaults := ⟨none, none, none⟩ }]
    outputs := [{ name := "out_file", field := "out_file", datatype := "text/text-file",
                  help := "the output", configuration := FieldConfiguration.mapping [],
                  column_defaults := ⟨none, none, none⟩ }]
    parameters := [{ name := "duplicates", field := "duplicates", datatype := "int",
                     help := "number of duplicates",
                     configuration := FieldConfiguration.mapping [],
                     required := false, default := SVal.i 2 }]
    configuration := [] }

/-- A concrete build spec. -/
def cApp : App :=
  { name := "concat-app"
    version := ⟨Release.str "1.0", "", 0⟩
    base_image := { name := "ubuntu", tag := some "22.04", package_manager := "apt",
                    python := none, conda_env := some "pipeline2app" }
    packages := ⟨[], [], [], []⟩
    resources := []
    org := some "Org"
    registry := "ghcr.io"
    readme := none
    labels := none
    schema_version := "1.0"
    title := "A test app"
    authors := [⟨"Jane Doe", "jane@example.com"⟩]
    licenses := []
    docs := ⟨"http://example.com", none⟩
    commands := [cCommand]
    loaded_from := none
    pipeline2app_version := PIPELINE2APP_VERSION }

/-- Claim C4: the check-registry engine returns Build when the registry has
no image at the spec's reference, but for a present image with a retrievable
embedded spec it crashes with `TypeError` — `compare_specs` is called with
the misspelled keyword `check_version` (the parameter is `check_versions`) —
before any diff is computed, so neither the Skip nor the Conflict branch is
reachable.  Evaluated at a concrete spec against an empty registry and
against one holding the image. -/
theorem checkRegistryCrashesOnPresentImage :
    makeCheckRegistry (fun _ => none) [cApp] = Except.ok [cApp] ∧
    makeCheckRegistry (fun r => if r = cApp.reference then some cApp else none)
      [cApp] = Except.error PyErr.typeError := by
  refine ⟨by decide, by decide⟩

/-- A concrete build spec at the Docker Hub registry. -/
def dockerHubApp : App := { cApp with registry := DOCKER_HUB, name := "App" }

/-- Claim C9 counterexample: with the default Docker Hub registry the
reference is `org/app:1.0`, not `docker.io/org/app:1.0` — the registry
prefix is dropped for Docker Hub, so the reference does not equal
`registry/org/name:tag`. -/
theorem referenceDropsDockerHubCex :
    dockerHubApp.registry = "docker.io" ∧
    App.reference dockerHubApp = "org/app:1.0" ∧
    App.reference dockerHubApp ≠ "docker.io/org/app:1.0" := by
  refine ⟨rfl, by decide, by decide⟩

/-- Claim C9 (amended): the reference is `path:tag` where the path is the
lower-cased concatenation of the registry prefix (omitted when the registry
is Docker Hub), the org prefix (omitted when org is unset or empty) and the
name, and the tag — the string form of the version — is appended verbatim,
outside the lower-casing.  Stated for every combination of registry and org:
org set and non-empty, and org unset or empty (the attrs default). -/
theorem referenceShape (a : App) :
    (∀ o : String, a.org = some o → o ≠ "" →
      (a.registry ≠ DOCKER_HUB →
        App.reference a = pyLower (a.registry ++ "/" ++ o ++ "/" ++ a.name) ++ ":" ++
          Version.tostr a.version) ∧
      (a.registry = DOCKER_HUB →
        App.reference a = pyLower (o ++ "/" ++ a.name) ++ ":" ++
          Version.tostr a.version)) ∧
    (a.org = none ∨ a.org = some "" →
      (a.registry ≠ DOCKER_HUB →
        App.reference a = pyLower (a.registry ++ "/" ++ a.name) ++ ":" ++
          Version.tostr a.version) ∧
      (a.registry = DOCKER_HUB →
        App.reference a = pyLower a.name ++ ":" ++ Version.tostr a.version)) := by
  constructor
  · intro o h2 h3
    constructor <;> intro h1 <;>
      simp [App.reference, App.path, App.tag, h1, h2, h3, String.append_assoc]
  · intro ho
    constructor <;> intro h1 <;> rcases ho with h2 | h2 <;>
      simp [App.reference, App.path, App.tag, h1, h2, String.append_assoc]

/-- A concrete build spec with the org left unset (the attrs default). -/
def noOrgApp : App := { cApp with org := none }

/-- Witness for the amended C9: a non-Docker-Hub spec with an org, a Docker
Hub spec with an org, and a spec with org unset. -/
theorem referenceShapeWitness :
    (cApp.org = some "Org" ∧ ("Org" : String) ≠ "" ∧ cApp.registry ≠ DOCKER_HUB ∧
      dockerHubApp.registry = DOCKER_HUB ∧ noOrgApp.org = none) ∧
    App.reference cApp = pyLower (cApp.registry ++ "/" ++ "Org" ++ "/" ++ cApp.name) ++
      ":" ++ Version.tostr cApp.version ∧
    App.reference dockerHubApp = pyLower ("Org" ++ "/" ++ dockerHubApp.name) ++ ":" ++
      Version.tostr dockerHubApp.version ∧
    App.reference noOrgApp = pyLower (noOrgApp.registry ++ "/" ++ noOrgApp.name) ++
      ":" ++ Version.tostr noOrgApp.version :=
  ⟨⟨rfl, by decide, by decide, rfl, rfl⟩,
   ((referenceShape cApp).1 "Org" rfl (by decide)).1 (by decide),
   ((referenceShape dockerHubApp).1 "Org" rfl (by decide)).2 rfl,
   ((referenceShape noOrgApp).2 (Or.inl rfl)).1 (by decide)⟩

/-- Claim C7: a build spec diffed against itself is empty for both values of
`check_versions`.  The serialized version strings are required to be
non-empty — as they are for every real spec — so that the
`check_versions=False` branch finds both keys to delete. -/
theorem compareSpecsSelfEmpty (a : App) (cv : Bool)
    (h1 : Version.tostr a.version ≠ "") (h2 : a.pipeline2app_version ≠ "") :
    App.compare_specs a a cv = Except.ok [] := by
  have hnd0 : ((App.asdict a).map Prod.fst).Nodup := by
    simp only [App.asdict, List.map_cons, List.map_nil]
    decide
  have hm1 : ("version", SVal.s (Version.tostr a.version)) ∈ App.asdict a := by
    simp [App.asdict]
  have hm2 : ("pipeline2app_version", SVal.s a.pipeline2app_version) ∈ App.asdict a := by
    simp [App.asdict]
  have k1 : keepInPrep ("version", SVal.s (Version.tostr a.version)) = true := by
    simp [keepInPrep, startsWithUnderscore, pyTruthy, isBoolVal, h1]
  have k2 : keepInPrep ("pipeline2app_version", SVal.s a.pipeline2app_version) = true := by
    simp [keepInPrep, startsWithUnderscore, pyTruthy, isBoolVal, h2]
  have hnd : (((App.asdict a).filter keepInPrep).map Prod.fst).Nodup :=
    nodupKeys_filter hnd0
  have hp2 : containsKey ((App.asdict a).filter keepInPrep) "pipeline2app_version" = true :=
    containsKey_filter_of_mem hm2 k2
  cases cv with
  | true =>
    simp only [App.compare_specs, prep, if_true, hp2, except_bind_ok]
    rw [diffKeys_self hnd]
  | false =>
    have he1 : eraseKey ((App.asdict a).filter keepInPrep) "pipeline2app_version" =
        ((App.asdict a).filter keepInPrep).filter
          (fun kv => kv.1 ≠ "pipeline2app_version") := eraseKey_eq_filter hnd
    have hv1 : containsKey
        (eraseKey ((App.asdict a).filter keepInPrep) "pipeline2app_version")
        "version" = true := by
      rw [he1]
      exact containsKey_filter_of_mem (List.mem_filter.mpr ⟨hm1, k1⟩) (by simp)
    have hnd1 : ((eraseKey ((App.asdict a).filter keepInPrep)
        "pipeline2app_version").map Prod.fst).Nodup := by
      rw [he1]; exact nodupKeys_filter hnd
    have hnd2 : ((eraseKey (eraseKey ((App.asdict a).filter keepInPrep)
        "pipeline2app_version") "version").map Prod.fst).Nodup := by
      rw [eraseKey_eq_filter hnd1]; exact nodupKeys_filter hnd1
    simp only [App.compare_specs, prep, pyDel, hp2, hv1, if_true,
      Bool.false_eq_true, if_false, except_bind_ok]
    rw [diffKeys_self hnd2]

/-- Witness for C7 at a concrete spec. -/
theorem compareSpecsSelfEmptyWitness :
    (Version.tostr cApp.version ≠ "" ∧ cApp.pipeline2app_version ≠ "") ∧
    App.compare_specs cApp cApp false = Except.ok [] :=
  ⟨⟨by decide, by decide⟩, compareSpecsSelfEmpty cApp false (by decide) (by decide)⟩

theorem asdict_keys (x : App) : (App.asdict x).map Prod.fst =
    ["name", "version", "base_image", "packages", "resources", "org", "registry",
     "readme", "labels", "schema_version", "title", "authors", "licenses", "docs",
     "commands", "pipeline2app_version"] := by
  simp [App.asdict]

theorem asdict_keys_nodup (x : App) : ((App.asdict x).map Prod.fst).Nodup := by
  rw [asdict_keys]; decide

theorem prep_false_eq (l : List (String × SVal))
    (hnd : (l.map Prod.fst).Nodup)
    (hp : containsKey (l.filter keepInPrep) "pipeline2app_version" = true)
    (hv : containsKey (eraseKey (l.filter keepInPrep) "pipeline2app_version")
      "version" = true) :
    prep false l = Except.ok (l.filter (fun kv =>
      (keepInPrep kv && kv.1 ≠ "pipeline2app_version") && kv.1 ≠ "version")) := by
  have hndf := nodupKeys_filter (p := keepInPrep) hnd
  have he1 := eraseKey_eq_filter (k := "pipeline2app_version") hndf
  have hnd1 : ((eraseKey (l.filter keepInPrep) "pipeline2app_version").map
      Prod.fst).Nodup := by
    rw [he1]; exact nodupKeys_filter hndf
  have he2 := eraseKey_eq_filter (k := "version") hnd1
  simp only [prep, pyDel, hp, hv, if_true, Bool.false_eq_true, if_false,
    except_bind_ok]
  rw [he2, he1, List.filter_filter, List.filter_filter]
  congr 1
  apply List.filter_congr
  intro x _
  cases keepInPrep x <;> cases decide (x.1 ≠ "pipeline2app_version") <;>
    cases decide (x.1 ≠ "version") <;> rfl

theorem prep_false_eq_app (x : App)
    (hv : keepInPrep ("version", SVal.s (Version.tostr x.version)) = true)
    (hp : keepInPrep ("pipeline2app_version", SVal.s x.pipeline2app_version) = true) :
    prep false (App.asdict x) = Except.ok ((App.asdict x).filter (fun kv =>
      (keepInPrep kv && kv.1 ≠ "pipeline2app_version") && kv.1 ≠ "version")) := by
  have hm1 : ("version", SVal.s (Version.tostr x.version)) ∈ App.asdict x := by
    simp [App.asdict]
  have hm2 : ("pipeline2app_version", SVal.s x.pipeline2app_version) ∈
      App.asdict x := by
    simp [App.asdict]
  have hnd := asdict_keys_nodup x
  have hndf := nodupKeys_filter (p := keepInPrep) hnd
  refine prep_false_eq _ hnd (containsKey_filter_of_mem hm2 hp) ?_
  rw [eraseKey_eq_filter hndf]
  exact containsKey_filter_of_mem (List.mem_filter.mpr ⟨hm1, hv⟩) (by simp)

theorem prep_true_eq_app (x : App)
    (hp : keepInPrep ("pipeline2app_version", SVal.s x.pipeline2app_version) = true) :
    prep true (App.asdict x) = Except.ok ((App.asdict x).filter keepInPrep) := by
  have hm2 : ("pipeline2app_version", SVal.s x.pipeline2app_version) ∈
      App.asdict x := by
    simp [App.asdict]
  simp [prep, containsKey_filter_of_mem hm2 hp]

/-- Claim C6: two build specs that differ only in the pipeline version and
the build-tool version fields compare as identical when
`check_versions=False`, and as different when `check_versions=True`.  Stated
for version fields whose serialized strings are non-empty (every real spec)
and differ at the serialized level (what `compare_specs` sees). -/
theorem compareSpecsVersionOnlyDiff (a : App) (v2 : Version) (p2 : String)
    (h1 : Version.tostr a.version ≠ "") (h2 : a.pipeline2app_version ≠ "")
    (h3 : Version.tostr v2 ≠ "") (h4 : p2 ≠ "")
    (hdiff : Version.tostr v2 ≠ Version.tostr a.version ∨
      p2 ≠ a.pipeline2app_version) :
    App.compare_specs a { a with version := v2, pipeline2app_version := p2 } false =
      Except.ok [] ∧
    (App.compare_specs a { a with version := v2, pipeline2app_version := p2 }
      true).map List.isEmpty = Except.ok false := by
  have hm1a : ("version", SVal.s (Version.tostr a.version)) ∈ App.asdict a := by
    simp [App.asdict]
  have hm2a : ("pipeline2app_version", SVal.s a.pipeline2app_version) ∈
      App.asdict a := by
    simp [App.asdict]
  have hm1b : ("version", SVal.s (Version.tostr v2)) ∈
      App.asdict { a with version := v2, pipeline2app_version := p2 } := by
    simp [App.asdict]
  have hm2b : ("pipeline2app_version", SVal.s p2) ∈
      App.asdict { a with version := v2, pipeline2app_version := p2 } := by
    simp [App.asdict]
  have k1a : keepInPrep ("version", SVal.s (Version.tostr a.version)) = true := by
    simp [keepInPrep, startsWithUnderscore, pyTruthy, isBoolVal, h1]
  have k2a : keepInPrep ("pipeline2app_version", SVal.s a.pipeline2app_version) =
      true := by
    simp [keepInPrep, startsWithUnderscore, pyTruthy, isBoolVal, h2]
  have k1b : keepInPrep ("version", SVal.s (Version.tostr v2)) = true := by
    simp [keepInPrep, startsWithUnderscore, pyTruthy, isBoolVal, h3]
  have k2b : keepInPrep ("pipeline2app_version", SVal.s p2) = true := by
    simp [keepInPrep, startsWithUnderscore, pyTruthy, isBoolVal, h4]
  constructor
  · have hA := prep_false_eq_app a k1a k2a
    have hB := prep_false_eq_app { a with version := v2, pipeline2app_version := p2 }
      k1b k2b
    simp only [App.compare_specs, hA, hB, except_bind_ok]
    have hFab : (App.asdict a).filter (fun kv =>
        (keepInPrep kv && kv.1 ≠ "pipeline2app_version") && kv.1 ≠ "version") =
        (App.asdict { a with version := v2, pipeline2app_version := p2 }).filter
          (fun kv =>
            (keepInPrep kv && kv.1 ≠ "pipeline2app_version") && kv.1 ≠ "version") := by
      simp [App.asdict, List.filter_cons]
    rw [hFab, diffKeys_self (nodupKeys_filter (asdict_keys_nodup _))]
  · have hA := prep_true_eq_app a k2a
    have hB := prep_true_eq_app { a with version := v2, pipeline2app_version := p2 }
      k2b
    have hne : deepDiffKeys ((App.asdict a).filter keepInPrep)
        ((App.asdict { a with version := v2, pipeline2app_version := p2 }).filter
          keepInPrep) ≠ [] := by
      rcases hdiff with hd | hd
      · refine diffKeys_ne_nil (List.mem_filter.mpr ⟨hm1a, k1a⟩)
          (lookupKey_of_mem_nodup (nodupKeys_filter (asdict_keys_nodup _))
            (List.mem_filter.mpr ⟨hm1b, k1b⟩)) ?_
        simp only [SVal.equiv, decide_eq_false_iff_not]
        exact fun he => hd he.symm
      · refine diffKeys_ne_nil (List.mem_filter.mpr ⟨hm2a, k2a⟩)
          (lookupKey_of_mem_nodup (nodupKeys_filter (asdict_keys_nodup _))
            (List.mem_filter.mpr ⟨hm2b, k2b⟩)) ?_
        simp only [SVal.equiv, decide_eq_false_iff_not]
        exact fun he => hd he.symm
    simp only [App.compare_specs, hA, hB, except_bind_ok, Except.map]
    cases hk : deepDiffKeys ((App.asdict a).filter keepInPrep)
        ((App.asdict { a with version := v2, pipeline2app_version := p2 }).filter
          keepInPrep) with
    | nil => exact absurd hk hne
    | cons hd tl => simp [List.isEmpty]

/-- Witness for C6 at a concrete spec whose versions are bumped. -/
theorem compareSpecsVersionOnlyDiffWitness :
    (Version.tostr cApp.version ≠ "" ∧ cApp.pipeline2app_version ≠ "" ∧
      Version.tostr (⟨Release.str "2.0", "", 0⟩ : Version) ≠ "" ∧ ("3.0" : String) ≠ "" ∧
      Version.tostr (⟨Release.str "2.0", "", 0⟩ : Version) ≠ Version.tostr cApp.version) ∧
    App.compare_specs cApp
      { cApp with version := ⟨Release.str "2.0", "", 0⟩, pipeline2app_version := "3.0" }
      false = Except.ok [] :=
  ⟨⟨by decide, by decide, by decide, by decide, by decide⟩,
   (compareSpecsVersionOnlyDiff cApp ⟨Release.str "2.0", "", 0⟩ "3.0" (by decide)
     (by decide) (by decide) (by decide) (Or.inl (by decide))).1⟩
